import Mathlib

/-!
Shallow embedding of the Stripe route handlers in
`apps/api/src/routes/stripe/stripeRoute.ts`.

The payment provider SDK (`stripe.*` calls) is external to the repository,
so each provider operation is modelled as a field of an environment
structure (`StripeEnv` for the gateway handlers, `WebhookDeps` for the
webhook); a handler is a pure function of that environment and the request
data, returning the response it produces together with the ordered trace
of provider calls it makes.
-/

namespace StripeRoute

/-- Provider-side customer object; the route code reads only `id`. -/
structure Customer where
  id : String
deriving Repr, DecidableEq

/-- Payment-intent / setup-intent object as read by the route code:
`status` and `client_secret` are the only fields accessed. -/
structure IntentObj where
  status : String
  client_secret : String
deriving Repr, DecidableEq

/-- Invoice as read through `subscription.latest_invoice.payment_intent`. -/
structure Invoice where
  payment_intent : IntentObj
deriving Repr, DecidableEq

/-- Subscription as read by `createNoTrialSubscription`: only
`latest_invoice.payment_intent.client_secret` is accessed. -/
structure Subscription where
  latest_invoice : Invoice
deriving Repr, DecidableEq

/-- Checkout session as read by `createCheckoutSession`: only `url`. -/
structure Session where
  url : String
deriving Repr, DecidableEq

/-- One provider API call, with the arguments the route code passes. -/
inductive ProviderCall where
  | customersSearch (query : String)
  | paymentIntentsSearch (query : String)
  | customersCreate (email name userId : String)
  | subscriptionsCreate (customer price paymentBehavior : String)
  | setupIntentsList (customer : String)
  | setupIntentsCreate (customer userId : String)
  | checkoutSessionsCreate (mode price : String) (email : Option String) (userId : String)
deriving Repr, DecidableEq

/-- Environment modelling the provider SDK: what each call would return. -/
structure StripeEnv where
  customersSearch : String → List Customer
  paymentIntentsSearch : String → List IntentObj
  customersCreate : String → String → String → Customer
  subscriptionsCreate : String → String → String → Subscription
  setupIntentsList : String → List IntentObj
  setupIntentsCreate : String → String → IntentObj
  checkoutSessionsCreate : String → String → Option String → String → Session

/-- Response bodies sent by the find-or-create handlers. -/
inductive RespBody where
  | secretAndCustomer (clientSecret customerId : String)
  | customerExist (id : String)
deriving Repr, DecidableEq

/-- Outcome of one route handler invocation: a body sent with `res.send`,
a redirect, or an error forwarded to the error middleware via `next`. -/
inductive ApiResult where
  | send (body : RespBody)
  | redirect (status : Nat) (url : String)
  | errorNext (message : String)
deriving Repr, DecidableEq

/-- Query string built by `stripe.customers.search({query: ...})`:
template literal `email:"${email}"` is plain concatenation, no escaping. -/
def emailQuery (email : String) : String :=
  "email:\"" ++ email ++ "\""

/-- Query string built by `stripe.paymentIntents.search({query: ...})`:
template literal `customer:"${customer.id}"`. -/
def customerQuery (id : String) : String :=
  "customer:\"" ++ id ++ "\""

/-- Message of the JavaScript TypeError raised when the route dereferences
`paymentIntent.status` (resp. `setupIntent.status`) with the intent `null`. -/
def nullStatusError : String :=
  "TypeError: Cannot read property status of null"

/-- Embedding of `createNoTrialSubscription` (stripeRoute.ts lines 211-276).
When the intent search returns an empty list the source computes
`[null]` and then dereferences `paymentIntent.status`, raising a TypeError
that the surrounding try/catch routes to `next(error)`. -/
def createNoTrialSubscription (env : StripeEnv)
    (name email userId priceId : String) : ApiResult × List ProviderCall :=
  let q := emailQuery email
  match env.customersSearch q with
  | customer :: _ =>
      let piq := customerQuery customer.id
      match env.paymentIntentsSearch piq with
      | [] =>
          (ApiResult.errorNext nullStatusError,
           [ProviderCall.customersSearch q, ProviderCall.paymentIntentsSearch piq])
      | paymentIntent :: _ =>
          if paymentIntent.status = "requires_payment_method" then
            (ApiResult.send
               (RespBody.secretAndCustomer paymentIntent.client_secret customer.id),
             [ProviderCall.customersSearch q, ProviderCall.paymentIntentsSearch piq])
          else
            (ApiResult.send (RespBody.customerExist customer.id),
             [ProviderCall.customersSearch q, ProviderCall.paymentIntentsSearch piq])
  | [] =>
      let customer := env.customersCreate email name userId
      let subscription := env.subscriptionsCreate customer.id priceId "default_incomplete"
      let clientSecret := subscription.latest_invoice.payment_intent.client_secret
      (ApiResult.send (RespBody.secretAndCustomer clientSecret customer.id),
       [ProviderCall.customersSearch q,
        ProviderCall.customersCreate email name userId,
        ProviderCall.subscriptionsCreate customer.id priceId "default_incomplete"])

/-- Embedding of `setupIntent` (stripeRoute.ts lines 308-366); same
structure as `createNoTrialSubscription` with `setupIntents.list` and
`setupIntents.create` in place of the payment-intent/subscription calls,
including the same null dereference on an empty intent list. -/
def setupIntent (env : StripeEnv)
    (name email userId : String) : ApiResult × List ProviderCall :=
  let q := emailQuery email
  match env.customersSearch q with
  | customer :: _ =>
      match env.setupIntentsList customer.id with
      | [] =>
          (ApiResult.errorNext nullStatusError,
           [ProviderCall.customersSearch q, ProviderCall.setupIntentsList customer.id])
      | si :: _ =>
          if si.status = "requires_payment_method" then
            (ApiResult.send (RespBody.secretAndCustomer si.client_secret customer.id),
             [ProviderCall.customersSearch q, ProviderCall.setupIntentsList customer.id])
          else
            (ApiResult.send (RespBody.customerExist customer.id),
             [ProviderCall.customersSearch q, ProviderCall.setupIntentsList customer.id])
  | [] =>
      let customer := env.customersCreate email name userId
      let si := env.setupIntentsCreate customer.id userId
      (ApiResult.send (RespBody.secretAndCustomer si.client_secret customer.id),
       [ProviderCall.customersSearch q,
        ProviderCall.customersCreate email name userId,
        ProviderCall.setupIntentsCreate customer.id userId])

/-- JavaScript falsiness of an optional string request field:
`undefined` and the empty string are falsy. -/
def falsy : Option String → Bool
  | none => true
  | some s => s.isEmpty

/-- Embedding of `createCheckoutSession` (stripeRoute.ts lines 149-176):
`if (!price || !userId) throw` routed to `next`, else a subscription-mode
session is created and the handler redirects 303 to its url. -/
def createCheckoutSession (env : StripeEnv)
    (price email userId : Option String) : ApiResult × List ProviderCall :=
  if falsy price || falsy userId then
    (ApiResult.errorNext "[STRIPE] prices and/or userId were undefined", [])
  else
    let p := price.getD ""
    let u := userId.getD ""
    let session := env.checkoutSessionsCreate "subscription" p email u
    (ApiResult.redirect 303 session.url,
     [ProviderCall.checkoutSessionsCreate "subscription" p email u])

/-- Signed event as decoded by `stripe.webhooks.constructEvent`. -/
structure StripeEvent where
  type : String
  dataObject : Option String
deriving Repr, DecidableEq

/-- The three downstream event handlers of `stripeEvents`. -/
inductive HandlerName where
  | setupIntentSucceeded
  | invoicePaymentSucceeded
  | customerSubscriptionCreated
deriving Repr, DecidableEq

/-- The `stripeEvents` handlers; each may throw (modelled as `Except`). -/
structure Handlers where
  setupIntentSucceeded : Option String → Except String Unit
  invoicePaymentSucceeded : Option String → Except String Unit
  customerSubscriptionCreated : Option String → Except String Unit

/-- Dependencies of the webhook route: the SDK signature verifier
(`constructEvent`, which throws on a bad or missing signature) and the
downstream handlers. -/
structure WebhookDeps where
  constructEvent : String → Option String → Except String StripeEvent
  handlers : Handlers

/-- Observable outcome of one webhook invocation: the response sent (if
any), which handlers ran in order, the errors passed to `next`, and an
exception escaping the route function uncaught (Express forwards such a
synchronous throw to the error middleware itself). -/
structure WebhookOutcome where
  response : Option (Nat × String)
  handlerCalls : List HandlerName
  nextErrors : List String
  uncaught : Option String
deriving Repr, DecidableEq

/-- Dispatch part of the webhook route (the switch over `event.type`,
stripeRoute.ts lines 85-127). The five logged-only cases and the default
case send the empty acknowledgment without calling a handler. The
`setup_intent.succeeded` call is not wrapped in try/catch, so a throw
escapes the function; the other two handler calls catch and `next` the
error, after which execution falls through to `res.send()`. -/
def webhookDispatch (h : Handlers) (event : StripeEvent) : WebhookOutcome :=
  if event.type = "payment_intent.succeeded" then
    ⟨some (200, ""), [], [], none⟩
  else if event.type = "payment_intent.payment_failed" then
    ⟨some (200, ""), [], [], none⟩
  else if event.type = "checkout.session.completed" then
    ⟨some (200, ""), [], [], none⟩
  else if event.type = "invoice.paid" then
    ⟨some (200, ""), [], [], none⟩
  else if event.type = "invoice.payment_failed" then
    ⟨some (200, ""), [], [], none⟩
  else if event.type = "setup_intent.succeeded" then
    match h.setupIntentSucceeded event.dataObject with
    | Except.error e => ⟨none, [HandlerName.setupIntentSucceeded], [], some e⟩
    | Except.ok _ => ⟨some (200, ""), [HandlerName.setupIntentSucceeded], [], none⟩
  else if event.type = "invoice.payment_succeeded" then
    match h.invoicePaymentSucceeded event.dataObject with
    | Except.error e => ⟨some (200, ""), [HandlerName.invoicePaymentSucceeded], [e], none⟩
    | Except.ok _ => ⟨some (200, ""), [HandlerName.invoicePaymentSucceeded], [], none⟩
  else if event.type = "customer.subscription.created" then
    match h.customerSubscriptionCreated event.dataObject with
    | Except.error e =>
        ⟨some (200, ""), [HandlerName.customerSubscriptionCreated], [e], none⟩
    | Except.ok _ =>
        ⟨some (200, ""), [HandlerName.customerSubscriptionCreated], [], none⟩
  else
    ⟨some (200, ""), [], [], none⟩

/-- Embedding of `webhook` (stripeRoute.ts lines 64-128): verify the
signature; on failure respond 400 with `Webhook Error: <message>` and
return; on success dispatch on the event type. -/
def webhook (d : WebhookDeps) (rawBody : String) (sig : Option String) : WebhookOutcome :=
  match d.constructEvent rawBody sig with
  | Except.error err =>
      ⟨some (400, "Webhook Error: " ++ err), [], [], none⟩
  | Except.ok event => webhookDispatch d.handlers event

/-- An invocation surfaced an error to the error path: either `next` was
called with an error or an exception escaped the route function. -/
def errorSurfaced (o : WebhookOutcome) : Bool :=
  !o.nextErrors.isEmpty || o.uncaught.isSome

/-- Provider calls that create an object (versus search/list reads). -/
def isCreateCall : ProviderCall → Bool
  | ProviderCall.customersCreate _ _ _ => true
  | ProviderCall.subscriptionsCreate _ _ _ => true
  | ProviderCall.setupIntentsCreate _ _ => true
  | ProviderCall.checkoutSessionsCreate _ _ _ _ => true
  | _ => false

/-- The branch a find-or-create flow took, classified from its observable
outcome: resumed a pending intent, reported the customer as existing,
created customer plus intent/subscription, or crashed on the null intent. -/
inductive FlowBranch where
  | resumePending
  | customerAlready
  | createdNew
  | nullStatusCrash
deriving Repr, DecidableEq

/-- Classify a flow outcome into its branch. -/
def classifyFlow : ApiResult × List ProviderCall → FlowBranch
  | (ApiResult.errorNext _, _) => FlowBranch.nullStatusCrash
  | (ApiResult.send (RespBody.customerExist _), _) => FlowBranch.customerAlready
  | (ApiResult.send (RespBody.secretAndCustomer _ _), calls) =>
      if calls.any isCreateCall then FlowBranch.createdNew else FlowBranch.resumePending
  | (ApiResult.redirect _ _, _) => FlowBranch.nullStatusCrash

/-- The first payment-intent lookup and the first setup-intent lookup are
shaped alike: both empty, or both non-empty with first elements of equal
status. -/
def correspondingIntents : List IntentObj → List IntentObj → Bool
  | [], [] => true
  | p :: _, s :: _ => p.status == s.status
  | _, _ => false

/-- For the first customer found by the email search (if any), the two
intent lookups the two flows would perform correspond in shape. -/
def intentLookupsCorrespond (env : StripeEnv) (email : String) : Bool :=
  match (env.customersSearch (emailQuery email)).head? with
  | none => true
  | some c =>
      correspondingIntents (env.paymentIntentsSearch (customerQuery c.id))
        (env.setupIntentsList c.id)

end StripeRoute

namespace StripeRoute

/-! Helper lemmas about `webhookDispatch`. -/

theorem webhookDispatch_setup_calls (h : Handlers) (e : StripeEvent)
    (ht : e.type = "setup_intent.succeeded") :
    (webhookDispatch h e).handlerCalls = [HandlerName.setupIntentSucceeded] := by
  unfold webhookDispatch
  rw [ht]
  simp only [String.reduceEq, reduceIte]
  cases h.setupIntentSucceeded e.dataObject <;> rfl

theorem webhookDispatch_invoice_calls (h : Handlers) (e : StripeEvent)
    (ht : e.type = "invoice.payment_succeeded") :
    (webhookDispatch h e).handlerCalls = [HandlerName.invoicePaymentSucceeded] := by
  unfold webhookDispatch
  rw [ht]
  simp only [String.reduceEq, reduceIte]
  cases h.invoicePaymentSucceeded e.dataObject <;> rfl

theorem webhookDispatch_subCreated_calls (h : Handlers) (e : StripeEvent)
    (ht : e.type = "customer.subscription.created") :
    (webhookDispatch h e).handlerCalls = [HandlerName.customerSubscriptionCreated] := by
  unfold webhookDispatch
  rw [ht]
  simp only [String.reduceEq, reduceIte]
  cases h.customerSubscriptionCreated e.dataObject <;> rfl

theorem webhookDispatch_other_calls (h : Handlers) (e : StripeEvent)
    (h1 : e.type ≠ "setup_intent.succeeded") (h2 : e.type ≠ "invoice.payment_succeeded")
    (h3 : e.type ≠ "customer.subscription.created") :
    (webhookDispatch h e).handlerCalls = [] := by
  unfold webhookDispatch
  split_ifs <;> rfl

theorem webhookDispatch_setup_error (h : Handlers) (e : StripeEvent)
    (ht : e.type = "setup_intent.succeeded") (err : String)
    (he : h.setupIntentSucceeded e.dataObject = Except.error err) :
    webhookDispatch h e = ⟨none, [HandlerName.setupIntentSucceeded], [], some err⟩ := by
  unfold webhookDispatch
  rw [ht]
  simp only [String.reduceEq, reduceIte]
  rw [he]

theorem webhookDispatch_invoice_error (h : Handlers) (e : StripeEvent)
    (ht : e.type = "invoice.payment_succeeded") (err : String)
    (he : h.invoicePaymentSucceeded e.dataObject = Except.error err) :
    webhookDispatch h e =
      ⟨some (200, ""), [HandlerName.invoicePaymentSucceeded], [err], none⟩ := by
  unfold webhookDispatch
  rw [ht]
  simp only [String.reduceEq, reduceIte]
  rw [he]

theorem webhookDispatch_subCreated_error (h : Handlers) (e : StripeEvent)
    (ht : e.type = "customer.subscription.created") (err : String)
    (he : h.customerSubscriptionCreated e.dataObject = Except.error err) :
    webhookDispatch h e =
      ⟨some (200, ""), [HandlerName.customerSubscriptionCreated], [err], none⟩ := by
  unfold webhookDispatch
  rw [ht]
  simp only [String.reduceEq, reduceIte]
  rw [he]

theorem webhook_ok_eq (d : WebhookDeps) (rawBody : String) (sig : Option String)
    (e : StripeEvent) (h : d.constructEvent rawBody sig = Except.ok e) :
    webhook d rawBody sig = webhookDispatch d.handlers e := by
  unfold webhook
  rw [h]

/-! Concrete instances used by the witnesses. -/

/-- Handlers that always succeed. -/
def handlersOk : Handlers :=
  ⟨fun _ => Except.ok (), fun _ => Except.ok (), fun _ => Except.ok ()⟩

/-- Handlers that always throw. -/
def handlersFail : Handlers :=
  ⟨fun _ => Except.error "boom", fun _ => Except.error "boom", fun _ => Except.error "boom"⟩

/-- Webhook dependencies whose signature verification always fails. -/
def depsBadSig : WebhookDeps :=
  ⟨fun _ _ => Except.error "No signatures found", handlersOk⟩

/-- Webhook dependencies whose verification yields an event of type `t`. -/
def depsEvent (t : String) (h : Handlers) : WebhookDeps :=
  ⟨fun _ _ => Except.ok ⟨t, none⟩, h⟩

/-- C1: when signature verification fails, the webhook responds 400 with a
diagnostic `Webhook Error: <message>` body and invokes no downstream
handler (no handler call, no `next`, no escaping exception); a handler can
therefore only run on the verification-success path. -/
theorem webhook_badSignature_rejected (d : WebhookDeps) (rawBody : String)
    (sig : Option String) (msg : String)
    (h : d.constructEvent rawBody sig = Except.error msg) :
    webhook d rawBody sig = ⟨some (400, "Webhook Error: " ++ msg), [], [], none⟩ := by
  unfold webhook
  rw [h]

theorem webhook_badSignature_rejected_witness :
    webhook depsBadSig "payload" none =
      ⟨some (400, "Webhook Error: No signatures found"), [], [], none⟩ :=
  webhook_badSignature_rejected depsBadSig "payload" none "No signatures found" rfl

/-- C5: for a successfully verified event, exactly the handler matching
the event type fires, exactly once; for every other type (logged-known or
unknown) no handler fires. -/
theorem webhook_dispatch_exactlyOne (d : WebhookDeps) (rawBody : String)
    (sig : Option String) (e : StripeEvent)
    (h : d.constructEvent rawBody sig = Except.ok e) :
    (e.type = "setup_intent.succeeded" →
        (webhook d rawBody sig).handlerCalls = [HandlerName.setupIntentSucceeded]) ∧
    (e.type = "invoice.payment_succeeded" →
        (webhook d rawBody sig).handlerCalls = [HandlerName.invoicePaymentSucceeded]) ∧
    (e.type = "customer.subscription.created" →
        (webhook d rawBody sig).handlerCalls = [HandlerName.customerSubscriptionCreated]) ∧
    (e.type ≠ "setup_intent.succeeded" → e.type ≠ "invoice.payment_succeeded" →
        e.type ≠ "customer.subscription.created" →
        (webhook d rawBody sig).handlerCalls = []) := by
  unfold webhook
  rw [h]
  exact ⟨webhookDispatch_setup_calls d.handlers e,
    webhookDispatch_invoice_calls d.handlers e,
    webhookDispatch_subCreated_calls d.handlers e,
    webhookDispatch_other_calls d.handlers e⟩

theorem webhook_dispatch_exactlyOne_witness :
    (webhook (depsEvent "setup_intent.succeeded" handlersOk) "b" none).handlerCalls =
      [HandlerName.setupIntentSucceeded] ∧
    (webhook (depsEvent "invoice.paid" handlersOk) "b" none).handlerCalls = [] :=
  ⟨(webhook_dispatch_exactlyOne (depsEvent "setup_intent.succeeded" handlersOk) "b" none
      ⟨"setup_intent.succeeded", none⟩ rfl).1 rfl,
   (webhook_dispatch_exactlyOne (depsEvent "invoice.paid" handlersOk) "b" none
      ⟨"invoice.paid", none⟩ rfl).2.2.2 (by decide) (by decide) (by decide)⟩

/-- C6: a verification failure runs no handler, while for a verified event
whose invoked handler throws, the error reaches the error path: either
`next(error)` is called (invoice.payment_succeeded,
customer.subscription.created) or the exception escapes the synchronous
route function uncaught (setup_intent.succeeded), which Express forwards
to the error middleware. -/
theorem webhook_handlerFailure_surfaced (d : WebhookDeps) (rawBody : String)
    (sig : Option String) :
    (∀ msg, d.constructEvent rawBody sig = Except.error msg →
        (webhook d rawBody sig).handlerCalls = []) ∧
    (∀ e err, d.constructEvent rawBody sig = Except.ok e →
        ((e.type = "setup_intent.succeeded" ∧
            d.handlers.setupIntentSucceeded e.dataObject = Except.error err) ∨
         (e.type = "invoice.payment_succeeded" ∧
            d.handlers.invoicePaymentSucceeded e.dataObject = Except.error err) ∨
         (e.type = "customer.subscription.created" ∧
            d.handlers.customerSubscriptionCreated e.dataObject = Except.error err)) →
        errorSurfaced (webhook d rawBody sig) = true) := by
  constructor
  · intro msg h
    unfold webhook
    rw [h]
  · intro e err h hcase
    rw [webhook_ok_eq d rawBody sig e h]
    rcases hcase with ⟨ht, he⟩ | ⟨ht, he⟩ | ⟨ht, he⟩
    · rw [webhookDispatch_setup_error d.handlers e ht err he]
      rfl
    · rw [webhookDispatch_invoice_error d.handlers e ht err he]
      rfl
    · rw [webhookDispatch_subCreated_error d.handlers e ht err he]
      rfl

theorem webhook_handlerFailure_surfaced_witness :
    errorSurfaced (webhook (depsEvent "setup_intent.succeeded" handlersFail) "b" none) = true :=
  (webhook_handlerFailure_surfaced (depsEvent "setup_intent.succeeded" handlersFail)
      "b" none).2 ⟨"setup_intent.succeeded", none⟩ "boom" rfl (Or.inl ⟨rfl, rfl⟩)

/-- C9: in the invoice.payment_succeeded and customer.subscription.created
branches a throwing handler leads to `next(error)` being called and
execution still falling through to `res.send()`: the outcome records both
the forwarded error and the empty 200 acknowledgment. -/
theorem webhook_nextThenAck (d : WebhookDeps) (rawBody : String)
    (sig : Option String) (e : StripeEvent) (err : String)
    (h : d.constructEvent rawBody sig = Except.ok e) :
    (e.type = "invoice.payment_succeeded" →
        d.handlers.invoicePaymentSucceeded e.dataObject = Except.error err →
        webhook d rawBody sig =
          ⟨some (200, ""), [HandlerName.invoicePaymentSucceeded], [err], none⟩) ∧
    (e.type = "customer.subscription.created" →
        d.handlers.customerSubscriptionCreated e.dataObject = Except.error err →
        webhook d rawBody sig =
          ⟨some (200, ""), [HandlerName.customerSubscriptionCreated], [err], none⟩) := by
  constructor
  · intro ht he
    rw [webhook_ok_eq d rawBody sig e h]
    exact webhookDispatch_invoice_error d.handlers e ht err he
  · intro ht he
    rw [webhook_ok_eq d rawBody sig e h]
    exact webhookDispatch_subCreated_error d.handlers e ht err he

theorem webhook_nextThenAck_witness :
    webhook (depsEvent "invoice.payment_succeeded" handlersFail) "b" none =
      ⟨some (200, ""), [HandlerName.invoicePaymentSucceeded], ["boom"], none⟩ :=
  (webhook_nextThenAck (depsEvent "invoice.payment_succeeded" handlersFail) "b" none
      ⟨"invoice.payment_succeeded", none⟩ "boom" rfl).1 rfl rfl

end StripeRoute

namespace StripeRoute

/-! Concrete environments used by the witnesses and the failing input. -/

/-- Environment where the email search finds one customer (`cus_1`) that
has one pending intent of each kind in `requires_payment_method` state. -/
def envPending : StripeEnv :=
  ⟨fun _ => [⟨"cus_1"⟩],
   fun _ => [⟨"requires_payment_method", "pi_secret"⟩],
   fun _ _ _ => ⟨"cus_new"⟩,
   fun _ _ _ => ⟨⟨⟨"requires_action", "sub_secret"⟩⟩⟩,
   fun _ => [⟨"requires_payment_method", "seti_secret"⟩],
   fun _ _ => ⟨"requires_action", "seti_new_secret"⟩,
   fun _ _ _ _ => ⟨"https://example.test/session"⟩⟩

/-- Environment where the email search finds one customer (`cus_1`) that
has no payment intents and no setup intents at all. -/
def envNoIntents : StripeEnv :=
  ⟨fun _ => [⟨"cus_1"⟩],
   fun _ => [],
   fun _ _ _ => ⟨"cus_new"⟩,
   fun _ _ _ => ⟨⟨⟨"requires_action", "sub_secret"⟩⟩⟩,
   fun _ => [],
   fun _ _ => ⟨"requires_action", "seti_new_secret"⟩,
   fun _ _ _ _ => ⟨"https://example.test/session"⟩⟩

/-- Environment where the email search finds no customer. -/
def envAbsent : StripeEnv :=
  ⟨fun _ => [],
   fun _ => [],
   fun _ _ _ => ⟨"cus_new"⟩,
   fun _ _ _ => ⟨⟨⟨"requires_action", "sub_secret"⟩⟩⟩,
   fun _ => [],
   fun _ _ => ⟨"requires_action", "seti_new_secret"⟩,
   fun _ _ _ _ => ⟨"https://example.test/session"⟩⟩

/-- C2: the claim says an existing customer with zero payment intents gets
`{customerExist}`, but the code computes `[null]` for an empty intent
search and then dereferences `paymentIntent.status`, so the request ends
in `next(TypeError)` instead: evaluating the embedding at a customer with
an empty payment-intent list yields the error path, not `customerExist`. -/
theorem noTrialSubscription_zeroIntents_typeError :
    createNoTrialSubscription envNoIntents "A" "a@x.com" "u1" "p1" =
      (ApiResult.errorNext nullStatusError,
       [ProviderCall.customersSearch (emailQuery "a@x.com"),
        ProviderCall.paymentIntentsSearch (customerQuery "cus_1")]) := rfl

/-- C3: when the email search finds a customer whose first payment intent
is in `requires_payment_method` state, the operation responds with that
intent's `client_secret` unchanged and the customer's id, and the call
trace holds only the two searches: no customer, subscription, or
payment-intent creation happens. -/
theorem noTrialSubscription_resumesPendingIntent (env : StripeEnv)
    (name email userId priceId : String) (c : Customer) (cs : List Customer)
    (pi : IntentObj) (pis : List IntentObj)
    (hc : env.customersSearch (emailQuery email) = c :: cs)
    (hp : env.paymentIntentsSearch (customerQuery c.id) = pi :: pis)
    (hs : pi.status = "requires_payment_method") :
    createNoTrialSubscription env name email userId priceId =
      (ApiResult.send (RespBody.secretAndCustomer pi.client_secret c.id),
       [ProviderCall.customersSearch (emailQuery email),
        ProviderCall.paymentIntentsSearch (customerQuery c.id)]) ∧
    (createNoTrialSubscription env name email userId priceId).2.any isCreateCall = false := by
  have h1 : createNoTrialSubscription env name email userId priceId =
      (ApiResult.send (RespBody.secretAndCustomer pi.client_secret c.id),
       [ProviderCall.customersSearch (emailQuery email),
        ProviderCall.paymentIntentsSearch (customerQuery c.id)]) := by
    unfold createNoTrialSubscription
    simp only [hc, hp, hs, String.reduceEq, reduceIte]
  exact ⟨h1, by rw [h1]; rfl⟩

theorem noTrialSubscription_resumesPendingIntent_witness :
    createNoTrialSubscription envPending "A" "a@x.com" "u1" "p1" =
      (ApiResult.send (RespBody.secretAndCustomer "pi_secret" "cus_1"),
       [ProviderCall.customersSearch (emailQuery "a@x.com"),
        ProviderCall.paymentIntentsSearch (customerQuery "cus_1")]) :=
  (noTrialSubscription_resumesPendingIntent envPending "A" "a@x.com" "u1" "p1"
    ⟨"cus_1"⟩ [] ⟨"requires_payment_method", "pi_secret"⟩ [] rfl rfl rfl).1

/-- C4: when the email search finds no customer, the operation creates a
customer with the given email, name and userId metadata, then creates a
subscription for that customer with `default_incomplete` payment
behavior, and responds with the new subscription's latest-invoice
payment-intent `client_secret` and the new customer's id. -/
theorem noTrialSubscription_createsWhenAbsent (env : StripeEnv)
    (name email userId priceId : String)
    (hc : env.customersSearch (emailQuery email) = []) :
    createNoTrialSubscription env name email userId priceId =
      (ApiResult.send (RespBody.secretAndCustomer
          ((env.subscriptionsCreate (env.customersCreate email name userId).id priceId
              "default_incomplete").latest_invoice.payment_intent.client_secret)
          (env.customersCreate email name userId).id),
       [ProviderCall.customersSearch (emailQuery email),
        ProviderCall.customersCreate email name userId,
        ProviderCall.subscriptionsCreate (env.customersCreate email name userId).id priceId
          "default_incomplete"]) := by
  unfold createNoTrialSubscription
  simp only [hc]

theorem noTrialSubscription_createsWhenAbsent_witness :
    createNoTrialSubscription envAbsent "A" "a@x.com" "u1" "p1" =
      (ApiResult.send (RespBody.secretAndCustomer "sub_secret" "cus_new"),
       [ProviderCall.customersSearch (emailQuery "a@x.com"),
        ProviderCall.customersCreate "a@x.com" "A" "u1",
        ProviderCall.subscriptionsCreate "cus_new" "p1" "default_incomplete"]) :=
  noTrialSubscription_createsWhenAbsent envAbsent "A" "a@x.com" "u1" "p1" rfl

/-- C7: when the price field or the userId field is missing (JavaScript
falsy), the operation forwards a validation error to the error middleware
and makes no provider call at all; when both are present, it creates a
subscription-mode checkout session and redirects 303 to its url. -/
theorem createCheckoutSession_validation (env : StripeEnv)
    (price email userId : Option String) :
    ((falsy price || falsy userId) = true →
        createCheckoutSession env price email userId =
          (ApiResult.errorNext "[STRIPE] prices and/or userId were undefined", [])) ∧
    ((falsy price || falsy userId) = false →
        createCheckoutSession env price email userId =
          (ApiResult.redirect 303
             (env.checkoutSessionsCreate "subscription" (price.getD "") email
                (userId.getD "")).url,
           [ProviderCall.checkoutSessionsCreate "subscription" (price.getD "") email
              (userId.getD "")])) := by
  constructor
  · intro h
    unfold createCheckoutSession
    rw [h]
    rfl
  · intro h
    unfold createCheckoutSession
    rw [h]
    rfl

theorem createCheckoutSession_validation_witness :
    createCheckoutSession envPending none (some "e@x.com") (some "u1") =
      (ApiResult.errorNext "[STRIPE] prices and/or userId were undefined", []) ∧
    createCheckoutSession envPending (some "price_1") (some "e@x.com") (some "u1") =
      (ApiResult.redirect 303 "https://example.test/session",
       [ProviderCall.checkoutSessionsCreate "subscription" "price_1" (some "e@x.com") "u1"]) :=
  ⟨(createCheckoutSession_validation envPending none (some "e@x.com") (some "u1")).1 rfl,
   (createCheckoutSession_validation envPending (some "price_1") (some "e@x.com")
      (some "u1")).2 rfl⟩

/-- C8: `setupIntent` mirrors `createNoTrialSubscription`: whenever the
customer search agrees and the first payment-intent lookup corresponds in
shape to the first setup-intent lookup (both empty, or first elements
with equal status), the two flows take the corresponding branch (resume
pending intent, report customer exists, create customer plus new
intent/subscription, or the shared null-dereference error path). -/
theorem setupIntent_mirrors_noTrial (env : StripeEnv)
    (name email userId priceId : String)
    (h : intentLookupsCorrespond env email = true) :
    classifyFlow (createNoTrialSubscription env name email userId priceId) =
      classifyFlow (setupIntent env name email userId) := by
  unfold intentLookupsCorrespond at h
  rcases hc : env.customersSearch (emailQuery email) with _ | ⟨c, cs⟩
  · unfold createNoTrialSubscription setupIntent
    simp only [hc]
    rfl
  · rw [hc] at h
    simp only [List.head?_cons] at h
    rcases hp : env.paymentIntentsSearch (customerQuery c.id) with _ | ⟨p, ps⟩ <;>
      rcases hsi : env.setupIntentsList c.id with _ | ⟨s, ss⟩
    · unfold createNoTrialSubscription setupIntent
      simp only [hc, hp, hsi]
      rfl
    · rw [hp, hsi] at h
      simp [correspondingIntents] at h
    · rw [hp, hsi] at h
      simp [correspondingIntents] at h
    · rw [hp, hsi] at h
      have hst : p.status = s.status := by
        simpa [correspondingIntents] using h
      unfold createNoTrialSubscription setupIntent
      simp only [hc, hp, hsi]
      by_cases hreq : p.status = "requires_payment_method"
      · rw [if_pos hreq, if_pos (hst ▸ hreq)]
        rfl
      · rw [if_neg hreq, if_neg (hst ▸ hreq)]
        rfl

theorem setupIntent_mirrors_noTrial_witness :
    classifyFlow (createNoTrialSubscription envPending "A" "a@x.com" "u1" "p1") =
      classifyFlow (setupIntent envPending "A" "a@x.com" "u1") :=
  setupIntent_mirrors_noTrial envPending "A" "a@x.com" "u1" "p1" rfl

/-- C10: both flows send the provider a customer-search query that is the
raw concatenation `email:"` ++ email ++ `"` with no escaping, and every
double quote inside the email adds to the two structural quotes of the
query, changing its structure. -/
theorem customersSearch_rawInterpolation (env : StripeEnv)
    (name email userId priceId : String) :
    (createNoTrialSubscription env name email userId priceId).2.head? =
        some (ProviderCall.customersSearch ("email:\"" ++ email ++ "\"")) ∧
    (setupIntent env name email userId).2.head? =
        some (ProviderCall.customersSearch ("email:\"" ++ email ++ "\"")) ∧
    (∀ s : String, (emailQuery s).data.count '"' = 2 + s.data.count '"') := by
  refine ⟨?_, ?_, ?_⟩
  · rcases hc : env.customersSearch (emailQuery email) with _ | ⟨c, cs⟩
    · unfold createNoTrialSubscription
      simp only [hc]
      rfl
    · rcases hp : env.paymentIntentsSearch (customerQuery c.id) with _ | ⟨p, ps⟩
      · unfold createNoTrialSubscription
        simp only [hc, hp]
        rfl
      · unfold createNoTrialSubscription
        simp only [hc, hp]
        split <;> rfl
  · rcases hc : env.customersSearch (emailQuery email) with _ | ⟨c, cs⟩
    · unfold setupIntent
      simp only [hc]
      rfl
    · rcases hsi : env.setupIntentsList c.id with _ | ⟨s, ss⟩
      · unfold setupIntent
        simp only [hc, hsi]
        rfl
      · unfold setupIntent
        simp only [hc, hsi]
        split <;> rfl
  · intro s
    obtain ⟨l⟩ := s
    have hd : (emailQuery ⟨l⟩).data =
        'e' :: 'm' :: 'a' :: 'i' :: 'l' :: ':' :: '"' :: (l ++ ['"']) := rfl
    rw [hd]
    simp [List.count_cons, List.count_append]
    omega

end StripeRoute
